import Mathlib

/-!
Shallow embedding of the cloud model wrappers in
perceptron/models/classification/cloud.py and of the RNG seeding utility in
perceptron/utils/rngs.py.

Python dicts are modelled as insertion-ordered association lists with String
keys, Python values as the inductive type PyVal, byte strings as List Nat,
and external collaborators (vendor SDK calls, the generated protobuf
serializer, the ujson codec, the image serializer ndarray_to_bytes, the
client handles) as function and type parameters.  Fallible constructors and
methods return Except PyError.  Each predictions method additionally returns
the model state it leaves behind and the list of vendor calls it issued, so
that frame and single-call properties can be stated.
-/

/-- A Python runtime value, restricted to the shapes these wrappers handle. -/
inductive PyVal : Type where
  | str (s : String)
  | int (n : Int)
  | list (xs : List PyVal)
  | dict (kvs : List (String × PyVal))

/-- Key lookup in a Python dict modelled as an ordered association list. -/
def lookupKey {α : Type} : List (String × α) → String → Option α
  | [], _ => none
  | (k, v) :: rest, key => if k = key then some v else lookupKey rest key

/-- Python dict assignment d[key] = v: replaces in place, appends if new. -/
def setKey {α : Type} : List (String × α) → String → α → List (String × α)
  | [], key, v => [(key, v)]
  | (k, w) :: rest, key, v =>
      if k = key then (key, v) :: rest else (k, w) :: setKey rest key v

/-- Python exceptions these code paths can raise. -/
inductive PyError : Type where
  | unboundLocal (name : String)
  | keyError (key : String)
  | typeError
  | valueError
  | assertionError
  | exc (msg : String)
  deriving DecidableEq

/-- One vendor network/API call, with the payload the wrapper sent. -/
inductive VendorCall : Type where
  | antiPorn (image : List Nat)
  | safeSearchDetection (content : List Nat)
  | objectLocalization (content : List Nat)
  | httpPost (url : String) (body : List Nat)
  deriving DecidableEq

/-- The base64 alphabet, in order. -/
def b64chars : List Char :=
  "ABCDEFGHIJKLMNOPQRSTUVWXYZabcdefghijklmnopqrstuvwxyz0123456789+/".toList

/-- The base64 digit for a 6-bit value. -/
def b64char (n : Nat) : Char := b64chars.getD n 'A'

/-- The 6-bit value of a base64 digit. -/
def b64val (c : Char) : Nat := b64chars.indexOf c

/-- Standard base64 encoding of a byte string, grouped three bytes at a time. -/
def b64encodeGroups : List Nat → List Char
  | [] => []
  | [a] => [b64char (a / 4), b64char (a % 4 * 16), '=', '=']
  | [a, b] => [b64char (a / 4), b64char (a % 4 * 16 + b / 16), b64char (b % 16 * 4), '=']
  | a :: b :: c :: rest =>
      b64char (a / 4) :: b64char (a % 4 * 16 + b / 16) ::
        b64char (b % 16 * 4 + c / 64) :: b64char (c % 64) :: b64encodeGroups rest

/-- base64.b64encode, producing the encoded text. -/
def b64encode (bs : List Nat) : String := String.mk (b64encodeGroups bs)

/-- Standard base64 decoding, four digits at a time, honouring = padding. -/
def b64decodeGroups : List Char → List Nat
  | a :: b :: c :: d :: rest =>
      if c = '=' then [b64val a * 4 + b64val b / 16]
      else if d = '=' then
        [b64val a * 4 + b64val b / 16, b64val b % 16 * 16 + b64val c / 4]
      else
        (b64val a * 4 + b64val b / 16) :: (b64val b % 16 * 16 + b64val c / 4) ::
          (b64val c % 4 * 64 + b64val d) :: b64decodeGroups rest
  | _ => []

/-- base64.b64decode on the encoded text. -/
def b64decode (s : String) : List Nat := b64decodeGroups s.toList

/-- str.encode on an ASCII string: the code points as bytes. -/
def asciiEncode (s : String) : List Nat := s.toList.map Char.toNat

/-- One classify_type entry of the GeneralClassifyRequest protobuf message.
The fields used by the code are type_name and topnum; a freshly added entry
carries the proto default topnum 0. -/
structure ClassifyType : Type where
  type_name : String
  topnum : Int

/-- The GeneralClassifyRequest protobuf message, with the fields the code
sets: image and the repeated classify_type. -/
structure GeneralClassifyRequest : Type where
  image : List Nat
  classify_type : List ClassifyType

/-- classifytype.topnum = 5 after the loop: only the message last added to
the repeated field is mutated. -/
def setLastTopnum : List ClassifyType → Int → List ClassifyType
  | [], _ => []
  | [c], n => [{ c with topnum := n }]
  | c :: c2 :: rest, n => c :: setLastTopnum (c2 :: rest) n

/-- State of an AipModel instance.  The Model base contract is external;
modelled from the spec: it stores the bounds, channel_axis and preprocessing
configuration.  The credential tuple is unpacked into three fields. -/
structure AipModelState (B C P : Type) : Type where
  bounds : B
  channel_axis : C
  preprocessing : P
  _appId : String
  _apiKey : String
  _secretKey : String

/-- AipModel.__init__: stores the base configuration and unpacks the
credential sequence into _appId, _apiKey, _secretKey; unpacking a sequence
whose length is not 3 raises ValueError. -/
def AipModel.init {B C P : Type} (credential : List String)
    (bounds : B) (channel_axis : C) (preprocessing : P) :
    Except PyError (AipModelState B C P) :=
  match credential with
  | [a, k, sk] =>
      Except.ok { bounds, channel_axis, preprocessing,
                  _appId := a, _apiKey := k, _secretKey := sk }
  | _ => Except.error PyError.valueError

/-- State of an AipAntiPornModel instance; M is the type of the external
AipImageCensor client handle. -/
structure AipAntiPornState (B C P M : Type) : Type where
  bounds : B
  channel_axis : C
  preprocessing : P
  _appId : String
  _apiKey : String
  _secretKey : String
  _task : String
  model : M

/-- AipAntiPornModel.__init__: runs the AipModel constructor, sets _task to
cls and builds the AipImageCensor client from the three credential parts. -/
def AipAntiPornModel.init {B C P M : Type} (credential : List String)
    (aipImageCensor : String → String → String → M)
    (bounds : B) (channel_axis : C) (preprocessing : P) :
    Except PyError (AipAntiPornState B C P M) :=
  match AipModel.init credential bounds channel_axis preprocessing with
  | Except.error e => Except.error e
  | Except.ok s =>
      Except.ok { bounds := s.bounds, channel_axis := s.channel_axis,
                  preprocessing := s.preprocessing, _appId := s._appId,
                  _apiKey := s._apiKey, _secretKey := s._secretKey,
                  _task := "cls",
                  model := aipImageCensor s._appId s._apiKey s._secretKey }

/-- State of a GoogleCloudModel instance: just the base configuration. -/
structure GoogleCloudState (B C P : Type) : Type where
  bounds : B
  channel_axis : C
  preprocessing : P

/-- GoogleCloudModel.__init__: stores the base configuration, then asserts
that os.environ.get GOOGLE_APPLICATION_CREDENTIALS is not None. -/
def GoogleCloudModel.init {B C P : Type}
    (googleApplicationCredentials : Option String)
    (bounds : B) (channel_axis : C) (preprocessing : P) :
    Except PyError (GoogleCloudState B C P) :=
  if googleApplicationCredentials.isSome then
    Except.ok { bounds, channel_axis, preprocessing }
  else Except.error PyError.assertionError

/-- State of a GoogleSafeSearchModel instance; M is the type of the external
ImageAnnotatorClient handle. -/
structure GoogleSafeSearchState (B C P M : Type) : Type where
  bounds : B
  channel_axis : C
  preprocessing : P
  _task : String
  model : M

/-- GoogleSafeSearchModel.__init__. -/
def GoogleSafeSearchModel.init {B C P M : Type}
    (googleApplicationCredentials : Option String) (imageAnnotatorClient : M)
    (bounds : B) (channel_axis : C) (preprocessing : P) :
    Except PyError (GoogleSafeSearchState B C P M) :=
  match GoogleCloudModel.init googleApplicationCredentials bounds channel_axis preprocessing with
  | Except.error e => Except.error e
  | Except.ok s =>
      Except.ok { bounds := s.bounds, channel_axis := s.channel_axis,
                  preprocessing := s.preprocessing, _task := "cls",
                  model := imageAnnotatorClient }

/-- State of a GoogleObjectDetectionModel instance. -/
structure GoogleObjectDetectionState (B C P M : Type) : Type where
  bounds : B
  channel_axis : C
  preprocessing : P
  model : M
  _task : String

/-- GoogleObjectDetectionModel.__init__. -/
def GoogleObjectDetectionModel.init {B C P M : Type}
    (googleApplicationCredentials : Option String) (imageAnnotatorClient : M)
    (bounds : B) (channel_axis : C) (preprocessing : P) :
    Except PyError (GoogleObjectDetectionState B C P M) :=
  match GoogleCloudModel.init googleApplicationCredentials bounds channel_axis preprocessing with
  | Except.error e => Except.error e
  | Except.ok s =>
      Except.ok { bounds := s.bounds, channel_axis := s.channel_axis,
                  preprocessing := s.preprocessing,
                  model := imageAnnotatorClient, _task := "det" }

/-- State of a GoogleOCRModel instance.  Its constructor sets no _task. -/
structure GoogleOCRState (B C P M : Type) : Type where
  bounds : B
  channel_axis : C
  preprocessing : P
  model : M

/-- GoogleOCRModel.__init__. -/
def GoogleOCRModel.init {B C P M : Type}
    (googleApplicationCredentials : Option String) (imageAnnotatorClient : M)
    (bounds : B) (channel_axis : C) (preprocessing : P) :
    Except PyError (GoogleOCRState B C P M) :=
  match GoogleCloudModel.init googleApplicationCredentials bounds channel_axis preprocessing with
  | Except.error e => Except.error e
  | Except.ok s =>
      Except.ok { bounds := s.bounds, channel_axis := s.channel_axis,
                  preprocessing := s.preprocessing,
                  model := imageAnnotatorClient }

/-- State of an OfflineAntiPornModel instance. -/
structure OfflineAntiPornState (B C P : Type) : Type where
  bounds : B
  channel_axis : C
  preprocessing : P
  url : String
  _apiType : List String
  _task : String

/-- OfflineAntiPornModel.__init__: stores the base configuration, the url,
_apiType as the one-element list antiporn, and _task cls. -/
def OfflineAntiPornModel.init {B C P : Type} (url : String)
    (bounds : B) (channel_axis : C) (preprocessing : P) :
    OfflineAntiPornState B C P :=
  { bounds, channel_axis, preprocessing, url,
    _apiType := ["antiporn"], _task := "cls" }

/-- AipAntiPornModel.predictions: serializes the image, calls
self.model.antiPorn once, and returns the result field of the response when
present, the whole response dict otherwise.  The vendor call antiPorn and
the external serializer ndarray_to_bytes are parameters. -/
def AipAntiPornModel.predictions {Image B C P M : Type}
    (ndarray_to_bytes : Image → List Nat)
    (antiPorn : List Nat → List (String × PyVal))
    (s : AipAntiPornState B C P M) (image : Image) :
    PyVal × AipAntiPornState B C P M × List VendorCall :=
  let image_bytes := ndarray_to_bytes image
  let predictions := antiPorn image_bytes
  (match lookupKey predictions "result" with
   | some v => v
   | none => PyVal.dict predictions,
   s, [VendorCall.antiPorn image_bytes])

/-- GoogleSafeSearchModel.predictions: serializes the image, calls
self.model.safe_search_detection once, converts the response with
protobuf_to_dict and indexes the safe_search_annotation key; a response
without that key raises KeyError. -/
def GoogleSafeSearchModel.predictions {Image VResp B C P M : Type}
    (ndarray_to_bytes : Image → List Nat)
    (protobuf_to_dict : VResp → List (String × PyVal))
    (safe_search_detection : List Nat → VResp)
    (s : GoogleSafeSearchState B C P M) (image : Image) :
    Except PyError PyVal × GoogleSafeSearchState B C P M × List VendorCall :=
  let image_bytes := ndarray_to_bytes image
  let response := safe_search_detection image_bytes
  (match lookupKey (protobuf_to_dict response) "safe_search_annotation" with
   | some v => Except.ok v
   | none => Except.error (PyError.keyError "safe_search_annotation"),
   s, [VendorCall.safeSearchDetection image_bytes])

/-- GoogleObjectDetectionModel.predictions: serializes the image, calls
self.model.object_localization once, then maps protobuf_to_dict over the
localized_object_annotations of the response, collecting a list. -/
def GoogleObjectDetectionModel.predictions {Image VResp VObj B C P M : Type}
    (ndarray_to_bytes : Image → List Nat)
    (localized_object_annotations : VResp → List VObj)
    (protobuf_to_dict : VObj → List (String × PyVal))
    (object_localization : List Nat → VResp)
    (s : GoogleObjectDetectionState B C P M) (image : Image) :
    PyVal × GoogleObjectDetectionState B C P M × List VendorCall :=
  let image_bytes := ndarray_to_bytes image
  let response := localized_object_annotations (object_localization image_bytes)
  let predictions := response.map (fun o => PyVal.dict (protobuf_to_dict o))
  (PyVal.list predictions, s, [VendorCall.objectLocalization image_bytes])

/-- GoogleOCRModel.predictions, transcribed from its own method body, which
also calls self.model.object_localization and maps protobuf_to_dict over
the localized_object_annotations. -/
def GoogleOCRModel.predictions {Image VResp VObj B C P M : Type}
    (ndarray_to_bytes : Image → List Nat)
    (localized_object_annotations : VResp → List VObj)
    (protobuf_to_dict : VObj → List (String × PyVal))
    (object_localization : List Nat → VResp)
    (s : GoogleOCRState B C P M) (image : Image) :
    PyVal × GoogleOCRState B C P M × List VendorCall :=
  let image_bytes := ndarray_to_bytes image
  let response := localized_object_annotations (object_localization image_bytes)
  let predictions := response.map (fun o => PyVal.dict (protobuf_to_dict o))
  (PyVal.list predictions, s, [VendorCall.objectLocalization image_bytes])

/-- External collaborators of OfflineAntiPornModel.predictions: the image
serializer, the generated protobuf codec for request and response (R is the
GeneralClassifyResponse message type), and the ujson codec. -/
structure OfflineEnv (Image R : Type) : Type where
  ndarray_to_bytes : Image → List Nat
  SerializeToString : GeneralClassifyRequest → List Nat
  json_dumps : List (String × PyVal) → String
  json_loads : String → List (String × PyVal)
  ParseFromString : List Nat → R
  protobuf_to_dict : R → List (String × PyVal)

/-- Everything observable about one run of OfflineAntiPornModel.predictions:
its outcome, the state it leaves, the vendor calls it issued and what it
printed. -/
structure OfflineOutcome (B C P : Type) : Type where
  result : Except PyError (List (String × PyVal))
  state : OfflineAntiPornState B C P
  calls : List VendorCall
  printed : List String

/-- OfflineAntiPornModel.predictions: builds a GeneralClassifyRequest whose
image is the serialized input and whose classify_type entries come from
_apiType (the last one getting topnum 5; an empty _apiType leaves the loop
variable classifytype unbound and raises UnboundLocalError before any
network call); wraps the serialized request base64-encoded in a JSON dict,
ASCII-encodes it and POSTs it to self.url.  The network outcome net is a
parameter: the decoded response text, or an exception message.  On a
network exception the except clause prints it, after which reading the
never-assigned local response raises UnboundLocalError.  On success the
response JSON has its result field base64-decoded, parsed as a
GeneralClassifyResponse and replaced by its dict form. -/
def OfflineAntiPornModel.predictions {Image R B C P : Type}
    (env : OfflineEnv Image R) (net : Except String String) (logid : Int)
    (s : OfflineAntiPornState B C P) (image : Image) : OfflineOutcome B C P :=
  if s._apiType.isEmpty then
    { result := Except.error (PyError.unboundLocal "classifytype"),
      state := s, calls := [], printed := [] }
  else
    let image_data := env.ndarray_to_bytes image
    let proto_data : GeneralClassifyRequest :=
      { image := image_data,
        classify_type :=
          setLastTopnum (s._apiType.map (fun n => { type_name := n, topnum := 0 })) 5 }
    let data := env.SerializeToString proto_data
    let req_array : List (String × PyVal) :=
      [("appid", PyVal.str "123456"), ("logid", PyVal.int logid),
       ("format", PyVal.str "json"), ("from", PyVal.str "test-python"),
       ("cmdid", PyVal.str "123"), ("clientip", PyVal.str "0.0.0.0"),
       ("data", PyVal.str (b64encode data))]
    let req_data := asciiEncode (env.json_dumps req_array)
    let call := VendorCall.httpPost s.url req_data
    match net with
    | Except.error e =>
        { result := Except.error (PyError.unboundLocal "response"),
          state := s, calls := [call], printed := [e] }
    | Except.ok response =>
        let result := env.json_loads response
        { result :=
            match lookupKey result "result" with
            | none => Except.error (PyError.keyError "result")
            | some (PyVal.str rs) =>
                Except.ok (setKey result "result"
                  (PyVal.dict (env.protobuf_to_dict
                    (env.ParseFromString (b64decode rs)))))
            | some _ => Except.error PyError.typeError,
          state := s, calls := [call], printed := [] }

/-- Whether a value is a Python list all of whose elements are dicts. -/
def isListOfDicts : PyVal → Bool
  | PyVal.list xs => xs.all (fun e => match e with
      | PyVal.dict _ => true
      | _ => false)
  | _ => false

/-- Whether a value is a dict carrying the documented class_name and
probability keys. -/
def hasAntiPornKeys : PyVal → Bool
  | PyVal.dict kvs =>
      (lookupKey kvs "class_name").isSome && (lookupKey kvs "probability").isSome
  | _ => false

/-- The documented antiporn prediction shape: a list of dicts each carrying
class_name and probability. -/
def isAntiPornShape : PyVal → Bool
  | PyVal.list xs => xs.all hasAntiPornKeys
  | _ => false

/-- A deterministic pseudo-random generator implementation over states of
type σ: seeding resets the whole state to a function of the seed, and each
draw is a function of the state.  random.Random and numpy RandomState are
two instances. -/
structure RandomImpl (σ : Type) : Type where
  seed : Int → σ
  next : σ → Int × σ

/-- The module-level generator pair of perceptron/utils/rngs.py: the Python
random.Random instance rng and the numpy RandomState instance nprng. -/
structure Rngs (σ τ : Type) : Type where
  rng : σ
  nprng : τ

/-- set_seeds: calls rng.seed seed then nprng.seed seed on the module-level
generators, each with the same seed. -/
def set_seeds {σ τ : Type} (R : RandomImpl σ) (N : RandomImpl τ)
    (_st : Rngs σ τ) (seed : Int) : Rngs σ τ :=
  { rng := R.seed seed, nprng := N.seed seed }

/-- A request to draw from one of the two module-level generators. -/
inductive DrawReq : Type where
  | py
  | np

/-- Runs a sequence of draw requests against the generator pair, returning
the drawn values and the final generator states. -/
def runDraws {σ τ : Type} (R : RandomImpl σ) (N : RandomImpl τ) :
    Rngs σ τ → List DrawReq → List Int × Rngs σ τ
  | st, [] => ([], st)
  | st, DrawReq.py :: rest =>
      let d := R.next st.rng
      let out := runDraws R N { st with rng := d.2 } rest
      (d.1 :: out.1, out.2)
  | st, DrawReq.np :: rest =>
      let d := N.next st.nprng
      let out := runDraws R N { st with nprng := d.2 } rest
      (d.1 :: out.1, out.2)

/-- A value of each PyVal shape this file instantiates concretely, printed
the way ujson prints it; used to build a concrete ujson.dumps stand-in. -/
def jsonOfPyVal : PyVal → String
  | PyVal.str s => "\"" ++ s ++ "\""
  | PyVal.int n => toString n
  | _ => "null"

/-- A concrete ujson.dumps stand-in for flat dicts of strings and ints, used
to instantiate the abstract JSON encoder on concrete inputs. -/
def jsonDumpsImpl (d : List (String × PyVal)) : String :=
  "\x7b" ++ String.intercalate ", "
    (d.map (fun kv => "\"" ++ kv.1 ++ "\": " ++ jsonOfPyVal kv.2)) ++ "\x7d"

/-- A concrete offline environment: images are already byte lists, the
protobuf request serializer projects the image bytes, JSON is encoded by
jsonDumpsImpl, and the response side parses to a dict wrapping the raw
bytes. -/
def offlineTestEnv : OfflineEnv (List Nat) (List (String × PyVal)) :=
  { ndarray_to_bytes := fun b => b,
    SerializeToString := fun r => r.image,
    json_dumps := jsonDumpsImpl,
    json_loads := fun _ => [("errno", PyVal.int 0), ("result", PyVal.str "QUJD")],
    ParseFromString := fun bs => [("raw", PyVal.list (bs.map (fun n => PyVal.int n)))],
    protobuf_to_dict := fun d => d }

/-- A concrete AipAntiPornModel state for evaluating concrete runs. -/
def aipTestState : AipAntiPornState Int Int Int Unit :=
  { bounds := 0, channel_axis := 3, preprocessing := 0,
    _appId := "a", _apiKey := "k", _secretKey := "s", _task := "cls", model := () }

/-- A concrete vendor response for AipAntiPornModel whose result field has
the documented shape. -/
def aipTestResponse : List (String × PyVal) :=
  [("result", PyVal.list
      [PyVal.dict [("class_name", PyVal.str "normal"), ("probability", PyVal.int 1)]])]

/-- A concrete well-formed safe-search annotation dict with the five
documented likelihood keys. -/
def ssAnnot : List (String × PyVal) :=
  [("adult", PyVal.int 3), ("medical", PyVal.int 1), ("racy", PyVal.int 2),
   ("spoof", PyVal.int 1), ("violence", PyVal.int 1)]

/-- A concrete GoogleSafeSearchModel state for evaluating concrete runs. -/
def gsTestState : GoogleSafeSearchState Int Int Int Unit :=
  { bounds := 0, channel_axis := 3, preprocessing := 0, _task := "cls", model := () }

/-- Claim C1: for every input image, OfflineAntiPornModel.predictions builds
a GeneralClassifyRequest whose image field holds the serialized image bytes
and whose classify_type list contains exactly one entry with type_name
antiporn and topnum 5; the body of the HTTP POST it sends is the ASCII JSON
encoding of an object whose data field is the base64 encoding of the
serialized protobuf request; and the dict it returns is the response JSON
with its result field replaced by the dict form of the
GeneralClassifyResponse obtained by base64-decoding that field and parsing
it as protobuf. -/
theorem offline_predictions_request_response {Image R B C P : Type}
    (env : OfflineEnv Image R) (url : String) (b : B) (c : C) (p : P)
    (image : Image) (logid : Int) (t rs : String)
    (hres : lookupKey (env.json_loads t) "result" = some (PyVal.str rs)) :
    (OfflineAntiPornModel.predictions env (Except.ok t) logid
        (OfflineAntiPornModel.init url b c p) image).calls
      = [VendorCall.httpPost url (asciiEncode (env.json_dumps
          [("appid", PyVal.str "123456"), ("logid", PyVal.int logid),
           ("format", PyVal.str "json"), ("from", PyVal.str "test-python"),
           ("cmdid", PyVal.str "123"), ("clientip", PyVal.str "0.0.0.0"),
           ("data", PyVal.str (b64encode (env.SerializeToString
             { image := env.ndarray_to_bytes image,
               classify_type := [{ type_name := "antiporn", topnum := 5 }] })))]))] ∧
    (OfflineAntiPornModel.predictions env (Except.ok t) logid
        (OfflineAntiPornModel.init url b c p) image).result
      = Except.ok (setKey (env.json_loads t) "result"
          (PyVal.dict (env.protobuf_to_dict (env.ParseFromString (b64decode rs))))) := by
  constructor
  · rfl
  · simp only [OfflineAntiPornModel.predictions, OfflineAntiPornModel.init,
      List.isEmpty, hres]
    rfl

/-- Witness for C1 at a concrete environment, image and response. -/
theorem offline_predictions_request_response_witness :
    lookupKey (offlineTestEnv.json_loads "resp") "result" = some (PyVal.str "QUJD") ∧
    (OfflineAntiPornModel.predictions offlineTestEnv (Except.ok "resp") 2000000
        (OfflineAntiPornModel.init "u" (0 : Int) (0 : Int) (0 : Int)) [1, 2, 3]).result
      = Except.ok [("errno", PyVal.int 0),
          ("result", PyVal.dict [("raw",
            PyVal.list [PyVal.int 65, PyVal.int 66, PyVal.int 67])])] := by
  refine ⟨rfl, ?_⟩
  rw [(offline_predictions_request_response offlineTestEnv "u" (0 : Int) (0 : Int)
    (0 : Int) [1, 2, 3] 2000000 "resp" "QUJD" rfl).2]
  rfl

/-- Claim C2 (code evaluated at the failing input): with a well-formed
vendor response whose safe_search_annotation is a dict of the five
documented likelihood keys, GoogleSafeSearchModel.predictions returns that
dict itself, which is not a list of dicts — contradicting the list-of-dicts
prediction format and the docstring of the method. -/
theorem googleSafeSearch_predictions_returns_dict :
    (GoogleSafeSearchModel.predictions (fun b => b) (fun d => d)
        (fun _ => [("safe_search_annotation", PyVal.dict ssAnnot)])
        gsTestState [7]).1 = Except.ok (PyVal.dict ssAnnot) ∧
    isListOfDicts (PyVal.dict ssAnnot) = false :=
  ⟨rfl, rfl⟩

/-- Claim C3: for every mocked vendor response r, AipAntiPornModel.predictions
yields the value at key result whenever r has one, and the whole response
dict otherwise; in the first case the result keeps the documented shape of a
list of dicts with keys class_name and probability whenever the vendor
response has it. -/
theorem aipAntiPorn_predictions_normalizes {Image B C P M : Type}
    (ndarray_to_bytes : Image → List Nat)
    (antiPorn : List Nat → List (String × PyVal))
    (s : AipAntiPornState B C P M) (image : Image) :
    (∀ v, lookupKey (antiPorn (ndarray_to_bytes image)) "result" = some v →
        (AipAntiPornModel.predictions ndarray_to_bytes antiPorn s image).1 = v) ∧
    (lookupKey (antiPorn (ndarray_to_bytes image)) "result" = none →
        (AipAntiPornModel.predictions ndarray_to_bytes antiPorn s image).1
          = PyVal.dict (antiPorn (ndarray_to_bytes image))) ∧
    (∀ v, lookupKey (antiPorn (ndarray_to_bytes image)) "result" = some v →
        isAntiPornShape v = true →
        isAntiPornShape
          (AipAntiPornModel.predictions ndarray_to_bytes antiPorn s image).1 = true) := by
  refine ⟨?_, ?_, ?_⟩
  · intro v h
    simp [AipAntiPornModel.predictions, h]
  · intro h
    simp [AipAntiPornModel.predictions, h]
  · intro v h hs
    simp [AipAntiPornModel.predictions, h, hs]

/-- Witness for C3 at a concrete state and response. -/
theorem aipAntiPorn_predictions_normalizes_witness :
    (AipAntiPornModel.predictions (fun b => b) (fun _ => aipTestResponse)
        aipTestState [5]).1
      = PyVal.list [PyVal.dict
          [("class_name", PyVal.str "normal"), ("probability", PyVal.int 1)]] ∧
    isAntiPornShape
      (AipAntiPornModel.predictions (fun b => b) (fun _ => aipTestResponse)
        aipTestState [5]).1 = true :=
  ⟨(aipAntiPorn_predictions_normalizes (fun b => b) (fun _ => aipTestResponse)
      aipTestState [5]).1 _ rfl,
   (aipAntiPorn_predictions_normalizes (fun b => b) (fun _ => aipTestResponse)
      aipTestState [5]).2.2 _ rfl rfl⟩

/-- Claim C4 counterexample: the offline request envelope is not a fixed
function of the input image.  At a fixed image and environment, two
invocations whose logid draws are 1000000 and 1000001 (both possible values
of random.randint 1000000 100000000) send different HTTP request bodies. -/
theorem offline_request_body_not_fixed :
    ¬ ((OfflineAntiPornModel.predictions offlineTestEnv (Except.ok "resp") 1000000
          (OfflineAntiPornModel.init "u" (0 : Int) (0 : Int) (0 : Int)) [1]).calls
        = (OfflineAntiPornModel.predictions offlineTestEnv (Except.ok "resp") 1000001
          (OfflineAntiPornModel.init "u" (0 : Int) (0 : Int) (0 : Int)) [1]).calls) := by
  decide

/-- Claim C4 amended: the offline request envelope is a fixed function of
the input image and of the logid drawn for the call: two invocations of
OfflineAntiPornModel.predictions on the same image send byte-for-byte
identical HTTP request bodies whenever the two calls draw equal logids,
whatever their network outcomes. -/
theorem offline_request_body_deterministic {Image R B C P : Type}
    (env : OfflineEnv Image R) (net1 net2 : Except String String)
    (url : String) (b : B) (c : C) (p : P) (image : Image)
    (l1 l2 : Int) (h : l1 = l2) :
    (OfflineAntiPornModel.predictions env net1 l1
        (OfflineAntiPornModel.init url b c p) image).calls
      = (OfflineAntiPornModel.predictions env net2 l2
        (OfflineAntiPornModel.init url b c p) image).calls := by
  subst h
  cases net1 <;> cases net2 <;> rfl

/-- Witness for the amended C4 at a concrete environment and logid. -/
theorem offline_request_body_deterministic_witness :
    (OfflineAntiPornModel.predictions offlineTestEnv (Except.ok "r") 5000000
        (OfflineAntiPornModel.init "u" (0 : Int) (0 : Int) (0 : Int)) [2]).calls
      = (OfflineAntiPornModel.predictions offlineTestEnv (Except.error "e") 5000000
        (OfflineAntiPornModel.init "u" (0 : Int) (0 : Int) (0 : Int)) [2]).calls :=
  offline_request_body_deterministic offlineTestEnv (Except.ok "r")
    (Except.error "e") "u" 0 0 0 [2] 5000000 5000000 rfl

/-- Claim C5: every predictions method is stateless with respect to the
model object: for every instance state and input image (and for the offline
model every network outcome and logid draw), the state after the call — all
fields, including bounds, channel_axis, preprocessing, the credential
fields, url, _apiType and _task — equals the state before it. -/
theorem predictions_stateless {Image VResp VObj B C P M B' C' P' M' : Type}
    (ndarray_to_bytes : Image → List Nat)
    (antiPorn : List Nat → List (String × PyVal))
    (protobuf_to_dict : VResp → List (String × PyVal))
    (safe_search_detection : List Nat → VResp)
    (localized_object_annotations : VResp → List VObj)
    (protobuf_to_dict_obj : VObj → List (String × PyVal))
    (object_localization : List Nat → VResp)
    (env : OfflineEnv Image VResp) (net : Except String String) (logid : Int)
    (s1 : AipAntiPornState B C P M) (s2 : GoogleSafeSearchState B C P M)
    (s3 : GoogleObjectDetectionState B C P M) (s4 : GoogleOCRState B' C' P' M')
    (s5 : OfflineAntiPornState B C P) (image : Image) :
    (AipAntiPornModel.predictions ndarray_to_bytes antiPorn s1 image).2.1 = s1 ∧
    (GoogleSafeSearchModel.predictions ndarray_to_bytes protobuf_to_dict
        safe_search_detection s2 image).2.1 = s2 ∧
    (GoogleObjectDetectionModel.predictions ndarray_to_bytes
        localized_object_annotations protobuf_to_dict_obj
        object_localization s3 image).2.1 = s3 ∧
    (GoogleOCRModel.predictions ndarray_to_bytes
        localized_object_annotations protobuf_to_dict_obj
        object_localization s4 image).2.1 = s4 ∧
    (OfflineAntiPornModel.predictions env net logid s5 image).state = s5 := by
  refine ⟨rfl, rfl, rfl, rfl, ?_⟩
  unfold OfflineAntiPornModel.predictions
  split
  · rfl
  · cases net <;> rfl

/-- Claim C6: a single invocation of any of the five predictions methods
issues exactly one vendor network/API call — one antiPorn call, one
safe_search_detection call, one object_localization call, or one HTTP POST
for the offline variant (whatever its network outcome) — with no retries
and no additional round trips. -/
theorem predictions_single_vendor_call {Image VResp VObj B C P M B' C' P' M' : Type}
    (ndarray_to_bytes : Image → List Nat)
    (antiPorn : List Nat → List (String × PyVal))
    (protobuf_to_dict : VResp → List (String × PyVal))
    (safe_search_detection : List Nat → VResp)
    (localized_object_annotations : VResp → List VObj)
    (protobuf_to_dict_obj : VObj → List (String × PyVal))
    (object_localization : List Nat → VResp)
    (env : OfflineEnv Image VResp) (net : Except String String) (logid : Int)
    (url : String) (b : B) (c : C) (p : P)
    (s1 : AipAntiPornState B C P M) (s2 : GoogleSafeSearchState B C P M)
    (s3 : GoogleObjectDetectionState B C P M) (s4 : GoogleOCRState B' C' P' M')
    (image : Image) :
    (AipAntiPornModel.predictions ndarray_to_bytes antiPorn s1 image).2.2.length = 1 ∧
    (GoogleSafeSearchModel.predictions ndarray_to_bytes protobuf_to_dict
        safe_search_detection s2 image).2.2.length = 1 ∧
    (GoogleObjectDetectionModel.predictions ndarray_to_bytes
        localized_object_annotations protobuf_to_dict_obj
        object_localization s3 image).2.2.length = 1 ∧
    (GoogleOCRModel.predictions ndarray_to_bytes
        localized_object_annotations protobuf_to_dict_obj
        object_localization s4 image).2.2.length = 1 ∧
    (OfflineAntiPornModel.predictions env net logid
        (OfflineAntiPornModel.init url b c p) image).calls.length = 1 := by
  refine ⟨rfl, rfl, rfl, rfl, ?_⟩
  cases net <;> rfl

/-- Claim C7: set_seeds seeds both module-level generators — the Python
random.Random instance rng and the numpy RandomState instance nprng — with
the same seed, and this makes draws reproducible: two runs that call
set_seeds with equal seeds and then draw the same sequence of requests from
rng and nprng obtain equal values, whatever generator states they started
from. -/
theorem set_seeds_reproducible {σ τ : Type} (R : RandomImpl σ) (N : RandomImpl τ)
    (st1 st2 : Rngs σ τ) (seed : Int) (reqs : List DrawReq) :
    (set_seeds R N st1 seed).rng = R.seed seed ∧
    (set_seeds R N st1 seed).nprng = N.seed seed ∧
    (runDraws R N (set_seeds R N st1 seed) reqs).1
      = (runDraws R N (set_seeds R N st2 seed) reqs).1 :=
  ⟨rfl, rfl, rfl⟩

/-- Claim C8: constructing GoogleCloudModel or any of its subclasses raises
AssertionError exactly when the GOOGLE_APPLICATION_CREDENTIALS environment
variable is unset; and constructing AipModel or AipAntiPornModel succeeds
only when the credential is a 3-element sequence, which is unpacked into
the _appId, _apiKey and _secretKey fields. -/
theorem credential_checks {B C P M : Type} (b : B) (c : C) (p : P) (m : M)
    (aipImageCensor : String → String → String → M) :
    (∀ cred : Option String,
      (GoogleCloudModel.init cred b c p
          = Except.error PyError.assertionError ↔ cred = none) ∧
      (GoogleSafeSearchModel.init cred m b c p
          = Except.error PyError.assertionError ↔ cred = none) ∧
      (GoogleObjectDetectionModel.init cred m b c p
          = Except.error PyError.assertionError ↔ cred = none) ∧
      (GoogleOCRModel.init cred m b c p
          = Except.error PyError.assertionError ↔ cred = none)) ∧
    (∀ (credential : List String) st,
        AipModel.init credential b c p = Except.ok st → credential.length = 3) ∧
    (∀ a k sk, AipModel.init [a, k, sk] b c p
        = Except.ok { bounds := b, channel_axis := c, preprocessing := p,
                      _appId := a, _apiKey := k, _secretKey := sk }) ∧
    (∀ (credential : List String) st,
        AipAntiPornModel.init credential aipImageCensor b c p = Except.ok st →
          credential.length = 3) := by
  have haip : ∀ (credential : List String) (st : AipModelState B C P),
      AipModel.init credential b c p = Except.ok st → credential.length = 3 := by
    intro credential st h
    rcases credential with _ | ⟨a, _ | ⟨k, _ | ⟨sk, _ | ⟨d, tl⟩⟩⟩⟩ <;>
      simp [AipModel.init] at h ⊢
  refine ⟨?_, haip, ?_, ?_⟩
  · intro cred
    cases cred <;>
      simp [GoogleCloudModel.init, GoogleSafeSearchModel.init,
        GoogleObjectDetectionModel.init, GoogleOCRModel.init]
  · intro a k sk
    rfl
  · intro credential st h
    rcases hinit : AipModel.init credential b c p with e | st0
    · rw [AipAntiPornModel.init, hinit] at h
      simp at h
    · exact haip credential st0 hinit

/-- Witness for C8 at concrete credentials. -/
theorem credential_checks_witness :
    GoogleCloudModel.init (B := Int) (C := Int) (P := Int) none 0 3 0
        = Except.error PyError.assertionError ∧
    AipModel.init ["a", "k", "sk"] (0 : Int) (3 : Int) (0 : Int)
        = Except.ok { bounds := 0, channel_axis := 3, preprocessing := 0,
                      _appId := "a", _apiKey := "k", _secretKey := "sk" } ∧
    (["a", "k", "sk"] : List String).length = 3 :=
  ⟨((credential_checks (M := Unit) (0 : Int) (3 : Int) (0 : Int) ()
      (fun _ _ _ => ())).1 none).1.mpr rfl,
   (credential_checks (M := Unit) (0 : Int) (3 : Int) (0 : Int) ()
      (fun _ _ _ => ())).2.2.1 "a" "k" "sk",
   (credential_checks (M := Unit) (0 : Int) (3 : Int) (0 : Int) ()
      (fun _ _ _ => ())).2.1 ["a", "k", "sk"]
      { bounds := 0, channel_axis := 3, preprocessing := 0,
        _appId := "a", _apiKey := "k", _secretKey := "sk" } rfl⟩

/-- Claim C9: when the HTTP POST raises an exception,
OfflineAntiPornModel.predictions neither propagates that exception nor
returns a value: the exception is caught and printed, the method then fails
with UnboundLocalError for the never-assigned local variable response, the
POST was attempted exactly once, and the model state is unchanged. -/
theorem offline_predictions_network_failure {Image R B C P : Type}
    (env : OfflineEnv Image R) (url : String) (b : B) (c : C) (p : P)
    (image : Image) (logid : Int) (e : String) :
    (OfflineAntiPornModel.predictions env (Except.error e) logid
        (OfflineAntiPornModel.init url b c p) image).result
      = Except.error (PyError.unboundLocal "response") ∧
    (OfflineAntiPornModel.predictions env (Except.error e) logid
        (OfflineAntiPornModel.init url b c p) image).printed = [e] ∧
    (OfflineAntiPornModel.predictions env (Except.error e) logid
        (OfflineAntiPornModel.init url b c p) image).state
      = OfflineAntiPornModel.init url b c p ∧
    (OfflineAntiPornModel.predictions env (Except.error e) logid
        (OfflineAntiPornModel.init url b c p) image).calls.length = 1 :=
  ⟨rfl, rfl, rfl, rfl⟩

/-- Claim C10: GoogleOCRModel.predictions and
GoogleObjectDetectionModel.predictions are extensionally equal: for every
input image and vendor behaviour both produce the same value and both issue
exactly the same single object_localization call (no text or OCR
endpoint). -/
theorem ocr_objectdetection_equivalent {Image VResp VObj B C P M B' C' P' M' : Type}
    (ndarray_to_bytes : Image → List Nat)
    (localized_object_annotations : VResp → List VObj)
    (protobuf_to_dict : VObj → List (String × PyVal))
    (object_localization : List Nat → VResp)
    (s1 : GoogleOCRState B C P M) (s2 : GoogleObjectDetectionState B' C' P' M')
    (image : Image) :
    (GoogleOCRModel.predictions ndarray_to_bytes localized_object_annotations
        protobuf_to_dict object_localization s1 image).1
      = (GoogleObjectDetectionModel.predictions ndarray_to_bytes
          localized_object_annotations protobuf_to_dict
          object_localization s2 image).1 ∧
    (GoogleOCRModel.predictions ndarray_to_bytes localized_object_annotations
        protobuf_to_dict object_localization s1 image).2.2
      = (GoogleObjectDetectionModel.predictions ndarray_to_bytes
          localized_object_annotations protobuf_to_dict
          object_localization s2 image).2.2 ∧
    (GoogleOCRModel.predictions ndarray_to_bytes localized_object_annotations
        protobuf_to_dict object_localization s1 image).2.2
      = [VendorCall.objectLocalization (ndarray_to_bytes image)] :=
  ⟨rfl, rfl, rfl⟩
